import Mathlib

/-!
# Verification of the Webscout streaming response normalization pipeline

A shallow embedding of the streaming-response code of the `webscout`
repository (the `Provider/*.py` adapter modules and the `sanitize_stream`
core they share), together with theorems settling the specification
claims about it.

Conventions of the embedding:
* Python/JSON values are modelled by the inductive type `JVal`
  (JSON numbers are modelled as integers; no input in this development
  uses fractional numerals).
* Fallible Python code is modelled with `Except String`, the error
  string naming the Python exception class raised.
* Character-level work is done on `List Char` with structural recursion
  so that every definition evaluates by kernel reduction.
-/

set_option maxRecDepth 10000

/-- A JSON / decoded-Python value: the shape of one decoded stream frame. -/
inductive JVal where
  | jnull
  | jbool (b : Bool)
  | jnum (n : Int)
  | jstr (s : String)
  | jarr (xs : List JVal)
  | jobj (fields : List (String × JVal))

namespace JVal

/-- Python truthiness of a decoded value (`if chunk:` / `and` guards). -/
def truthy : JVal → Bool
  | jnull => false
  | jbool b => b
  | jnum n => n ≠ 0
  | jstr s => ¬ s.isEmpty
  | jarr xs => ¬ xs.isEmpty
  | jobj fs => ¬ fs.isEmpty

/-- First binding of a key in an object's field list (`dict` lookup). -/
def lookup (fields : List (String × JVal)) (k : String) : Option JVal :=
  match fields with
  | [] => none
  | (k', v) :: rest => if k' = k then some v else lookup rest k

end JVal

/-- Python whitespace class `\s` = `[ \t\n\r\f\v]`, as used by `str.strip`
and the providers' regular expressions. -/
def isPySpace (c : Char) : Bool :=
  c = ' ' || c = '\t' || c = '\n' || c = '\r' || c = '\x0b' || c = '\x0c'

/-- Strip leading and trailing Python whitespace from a character list. -/
def trimChars (cs : List Char) : List Char :=
  ((cs.dropWhile isPySpace).reverse.dropWhile isPySpace).reverse

/-- Python `str.strip()`. -/
def pyStrip (s : String) : String :=
  String.mk (trimChars s.toList)

/-- Does `pre` occur as a prefix of `cs`? -/
def startsWithL (pre cs : List Char) : Bool :=
  match pre, cs with
  | [], _ => true
  | _ :: _, [] => false
  | p :: ps, c :: rest => p = c && startsWithL ps rest

/-- Drop a prefix of length `n`. -/
def dropL (n : Nat) (cs : List Char) : List Char := cs.drop n

/-- Find the first occurrence of `pat` in `cs`; returns the remainder of
`cs` starting right after that occurrence. -/
def findAfterSub (pat : List Char) : List Char → Option (List Char)
  | [] => if pat.isEmpty then some [] else none
  | c :: rest =>
    if startsWithL pat (c :: rest) then some (dropL pat.length (c :: rest))
    else findAfterSub pat rest

/-- Does `pat` occur anywhere in `cs`? -/
def containsSub (pat cs : List Char) : Bool :=
  (findAfterSub pat cs).isSome

/-- The characters of `cs` before the first occurrence of `pat`, when
`pat` occurs (`None` otherwise). -/
def takeUntilSub (pat : List Char) : List Char → Option (List Char)
  | [] => if pat.isEmpty then some [] else none
  | c :: rest =>
    if startsWithL pat (c :: rest) then some []
    else (takeUntilSub pat rest).map (c :: ·)

/-- Split a character list at every occurrence of `sep` (`'\n'`). -/
def splitOnChar (sep : Char) : List Char → List (List Char)
  | [] => [[]]
  | c :: rest =>
    let r := splitOnChar sep rest
    if c = sep then [] :: r
    else
      match r with
      | [] => [[c]]
      | h :: t => (c :: h) :: t

/-- Drop one trailing `'\r'` (tolerating `\r\n` line endings). -/
def dropCR (cs : List Char) : List Char :=
  match cs.reverse with
  | '\r' :: rest => rest.reverse
  | _ => cs

/-! ## JSON parsing (Frame Decoder)

`webscout.sanitize` is not part of the sources available here; per the
specification its decoder "attempts to parse each frame as JSON".  The
parser below is a fuel-based recursive-descent `json.loads` model over
`JVal`: objects, arrays, strings with the standard escapes, integer
numerals and the three literals.  As `json.loads` does, it rejects raw
control characters inside string literals. -/

/-- Decode one hexadecimal digit. -/
def hexVal (c : Char) : Option Nat :=
  if '0' ≤ c ∧ c ≤ '9' then some (c.toNat - '0'.toNat)
  else if 'a' ≤ c ∧ c ≤ 'f' then some (c.toNat - 'a'.toNat + 10)
  else if 'A' ≤ c ∧ c ≤ 'F' then some (c.toNat - 'A'.toNat + 10)
  else none

/-- Parse the body of a JSON string literal (the opening quote already
consumed); returns the decoded characters and the input after the
closing quote. -/
def parseJStr (fuel : Nat) (cs : List Char) : Option (List Char × List Char) :=
  match fuel, cs with
  | 0, _ => none
  | _, [] => none
  | fuel + 1, c :: rest =>
    if c = '"' then some ([], rest)
    else if c = '\\' then
      match rest with
      | [] => none
      | e :: rest' =>
        let simpleEsc : Option Char :=
          if e = '"' then some '"'
          else if e = '\\' then some '\\'
          else if e = '/' then some '/'
          else if e = 'b' then some '\x08'
          else if e = 'f' then some '\x0c'
          else if e = 'n' then some '\n'
          else if e = 'r' then some '\r'
          else if e = 't' then some '\t'
          else none
        match simpleEsc with
        | some d =>
          match parseJStr fuel rest' with
          | some (tail, rem) => some (d :: tail, rem)
          | none => none
        | none =>
          if e = 'u' then
            match rest' with
            | h1 :: h2 :: h3 :: h4 :: rest'' =>
              match hexVal h1, hexVal h2, hexVal h3, hexVal h4 with
              | some a, some b, some c3, some d =>
                let n := ((a * 16 + b) * 16 + c3) * 16 + d
                if _h : n < 1114112 then
                  match parseJStr fuel rest'' with
                  | some (tail, rem) => some (Char.ofNat n :: tail, rem)
                  | none => none
                else none
              | _, _, _, _ => none
            | _ => none
          else none
    else if c.toNat < 32 then none
    else
      match parseJStr fuel rest with
      | some (tail, rem) => some (c :: tail, rem)
      | none => none

/-- Skip JSON whitespace. -/
def skipJWs (cs : List Char) : List Char :=
  cs.dropWhile (fun c => c = ' ' || c = '\t' || c = '\n' || c = '\r')

/-- Parse a run of decimal digits. -/
def parseDigits (cs : List Char) : Option (Nat × List Char) :=
  let digits := cs.takeWhile (fun c => '0' ≤ c ∧ c ≤ '9')
  if digits.isEmpty then none
  else some (digits.foldl (fun n c => n * 10 + (c.toNat - '0'.toNat)) 0,
             cs.drop digits.length)

mutual

/-- Parse one JSON value from `cs` (leading whitespace already skipped). -/
def parseJVal (fuel : Nat) (cs : List Char) : Option (JVal × List Char) :=
  match fuel with
  | 0 => none
  | fuel + 1 =>
    match cs with
    | [] => none
    | c :: rest =>
      if c = '"' then
        match parseJStr (fuel + 1) rest with
        | some (body, rem) => some (.jstr (String.mk body), rem)
        | none => none
      else if c = '{' then
        parseJObj fuel (skipJWs rest) true
      else if c = '[' then
        parseJArr fuel (skipJWs rest) true
      else if c = 't' then
        if startsWithL ['r', 'u', 'e'] rest then some (.jbool true, rest.drop 3)
        else none
      else if c = 'f' then
        if startsWithL ['a', 'l', 's', 'e'] rest then some (.jbool false, rest.drop 4)
        else none
      else if c = 'n' then
        if startsWithL ['u', 'l', 'l'] rest then some (.jnull, rest.drop 3)
        else none
      else if c = '-' then
        match parseDigits rest with
        | some (n, rem) =>
          match rem with
          | d :: _ => if d = '.' || d = 'e' || d = 'E' then none else some (.jnum (-(n : Int)), rem)
          | [] => some (.jnum (-(n : Int)), rem)
        | none => none
      else
        match parseDigits (c :: rest) with
        | some (n, rem) =>
          match rem with
          | d :: _ => if d = '.' || d = 'e' || d = 'E' then none else some (.jnum (n : Int), rem)
          | [] => some (.jnum (n : Int), rem)
        | none => none

/-- Parse the members of a JSON object after `{`; `first` marks that no
member has been consumed yet. -/
def parseJObj (fuel : Nat) (cs : List Char) (first : Bool) : Option (JVal × List Char) :=
  match fuel with
  | 0 => none
  | fuel + 1 =>
    match cs with
    | '}' :: rest => if first then some (.jobj [], rest) else none
    | '"' :: rest =>
      match parseJStr (fuel + 1) rest with
      | some (key, rem) =>
        match skipJWs rem with
        | ':' :: rem' =>
          match parseJVal fuel (skipJWs rem') with
          | some (v, rem'') =>
            match skipJWs rem'' with
            | ',' :: rem''' =>
              match parseJObj fuel (skipJWs rem''') false with
              | some (.jobj fs, rem4) => some (.jobj ((String.mk key, v) :: fs), rem4)
              | _ => none
            | '}' :: rem''' => some (.jobj [(String.mk key, v)], rem''')
            | _ => none
          | none => none
        | _ => none
      | none => none
    | _ => none

/-- Parse the elements of a JSON array after `[`; `first` marks that no
element has been consumed yet. -/
def parseJArr (fuel : Nat) (cs : List Char) (first : Bool) : Option (JVal × List Char) :=
  match fuel with
  | 0 => none
  | fuel + 1 =>
    match cs with
    | ']' :: rest => if first then some (.jarr [], rest) else none
    | _ =>
      match parseJVal fuel cs with
      | some (v, rem) =>
        match skipJWs rem with
        | ',' :: rem' =>
          match parseJArr fuel (skipJWs rem') false with
          | some (.jarr xs, rem'') => some (.jarr (v :: xs), rem'')
          | _ => none
        | ']' :: rem' => some (.jarr [v], rem')
        | _ => none
      | none => none

end

/-- `json.loads`: parse a complete JSON document, allowing surrounding
whitespace, rejecting trailing garbage.  `none` models `JSONDecodeError`. -/
def jsonLoads (s : String) : Option JVal :=
  let cs := skipJWs s.toList
  match parseJVal (cs.length + 1) cs with
  | some (v, rem) => if (skipJWs rem).isEmpty then some v else none
  | none => none

/-! ## Unicode-escape decoding

Models Python's `unicode_escape` codec (`"…".encode().decode('unicode_escape')`
in `K2Think.ask.for_non_stream`, and the capture post-processing the spec
prescribes for regex extraction): backslash escape sequences are decoded,
unknown escapes keep the backslash. -/

/-- Decode Python `unicode_escape` sequences in a character list,
with step-counting fuel (each step consumes at least one character). -/
def uEscAux (fuel : Nat) (cs : List Char) : List Char :=
  match fuel with
  | 0 => cs
  | fuel + 1 =>
    match cs with
    | [] => []
    | '\\' :: [] => ['\\']
    | '\\' :: e :: rest =>
      if e = 'n' then '\n' :: uEscAux fuel rest
      else if e = 'r' then '\r' :: uEscAux fuel rest
      else if e = 't' then '\t' :: uEscAux fuel rest
      else if e = '\\' then '\\' :: uEscAux fuel rest
      else if e = '\'' then '\'' :: uEscAux fuel rest
      else if e = '"' then '"' :: uEscAux fuel rest
      else if e = 'a' then '\x07' :: uEscAux fuel rest
      else if e = 'b' then '\x08' :: uEscAux fuel rest
      else if e = 'f' then '\x0c' :: uEscAux fuel rest
      else if e = 'v' then '\x0b' :: uEscAux fuel rest
      else if e = 'x' then
        match rest with
        | h1 :: h2 :: rest' =>
          match hexVal h1, hexVal h2 with
          | some a, some b => Char.ofNat (a * 16 + b) :: uEscAux fuel rest'
          | _, _ => '\\' :: e :: uEscAux fuel rest
        | _ => '\\' :: e :: uEscAux fuel rest
      else if e = 'u' then
        match rest with
        | h1 :: h2 :: h3 :: h4 :: rest' =>
          match hexVal h1, hexVal h2, hexVal h3, hexVal h4 with
          | some a, some b, some c, some d =>
            let n := ((a * 16 + b) * 16 + c) * 16 + d
            if n < 1114112 then Char.ofNat n :: uEscAux fuel rest'
            else '\\' :: e :: uEscAux fuel rest
          | _, _, _, _ => '\\' :: e :: uEscAux fuel rest
        | _ => '\\' :: e :: uEscAux fuel rest
      else if '0' <= e && e <= '7' then
        match rest with
        | d2 :: d3 :: rest' =>
          if (('0' <= d2 && d2 <= '7') && ('0' <= d3 && d3 <= '7') : Bool) then
            Char.ofNat (((e.toNat - 48) * 8 + (d2.toNat - 48)) * 8 + (d3.toNat - 48)) :: uEscAux fuel rest'
          else if '0' <= d2 && d2 <= '7' then
            Char.ofNat ((e.toNat - 48) * 8 + (d2.toNat - 48)) :: uEscAux fuel (d3 :: rest')
          else Char.ofNat (e.toNat - 48) :: uEscAux fuel (d2 :: d3 :: rest')
        | [d2] =>
          if '0' <= d2 && d2 <= '7' then [Char.ofNat ((e.toNat - 48) * 8 + (d2.toNat - 48))]
          else [Char.ofNat (e.toNat - 48), d2]
        | [] => [Char.ofNat (e.toNat - 48)]
      else '\\' :: e :: uEscAux fuel rest
    | c :: rest => c :: uEscAux fuel rest

/-- Decode Python `unicode_escape` sequences in a character list. -/
def uEsc (cs : List Char) : List Char := uEscAux cs.length cs

/-- `unicode_escape` decoding on strings. -/
def uEscStr (s : String) : String := String.mk (uEsc s.toList)

/-! ## The `sanitize_stream` core

Modelled from the spec: the module `webscout/sanitize.py` that defines
`sanitize_stream` is not among the available sources (only its callers,
the provider modules, are), so the Frame Splitter, Frame Decoder and
Content Extractor below follow sections 4.1–4.3 of the specification.
Regular-expression rule lists are modelled as lists of matcher functions
(`String → Bool` for `skip_regexes`, `String → Option String` returning
the first capture group for `extract_regexes`); the concrete patterns the
providers pass are given as explicit matcher functions further down.
The envelope/bare wrapping of §4.3(5) is performed by each provider's own
loop in the sources (`resp = dict(text=...)`), so the core model yields
extracted content values directly. -/

/-- The configuration bundle one provider passes to `sanitize_stream`. -/
structure SanitizeCfg where
  intro : Option String
  toJson : Bool
  skipMarkers : List String := ["[DONE]"]
  skipRegexes : List (String → Bool) := []
  extractRegexes : List (String → Option String) := []
  contentExtractor : Option (JVal → Option JVal) := none
  yieldRawOnError : Bool := false

/-- Frame Splitter (spec §4.1): join the incoming chunks, split into
lines on `'\n'` tolerating `'\r\n'`, flush a final unterminated line,
and when an `intro_value` is configured keep only lines that (after
trimming) begin with it, stripped of the prefix. -/
def splitFrames (intro : Option String) (chunks : List String) : List String :=
  let cs := (String.join chunks).toList
  let pieces := splitOnChar '\n' cs
  let pieces :=
    match pieces.getLast? with
    | some [] => pieces.dropLast
    | _ => pieces
  let lines := pieces.map dropCR
  match intro with
  | none => lines.map String.mk
  | some iv =>
    lines.filterMap fun l =>
      let t := trimChars l
      if startsWithL iv.toList t then some (String.mk (dropL iv.length t))
      else none

/-- Outcome of the Decoder/Extractor stages on one frame. -/
inductive FrameStep where
  | terminate
  | skip
  | emit (v : JVal)

/-- First extract-regex capture (spec §4.3(2)). -/
def firstExtract (ps : List (String → Option String)) (s : String) : Option String :=
  match ps with
  | [] => none
  | p :: rest =>
    match p s with
    | some c => some c
    | none => firstExtract rest s

/-- Frame Decoder and Content Extractor on one frame (spec §4.2 / §4.3):
`skip_markers` terminate the stream; `skip_regexes` drop the frame;
`extract_regexes` pull the first capture group (unicode escapes decoded);
otherwise the frame is JSON-decoded when `to_json` is set (decode
failures drop the frame or pass the raw string per `yield_raw_on_error`)
and handed to the `content_extractor`, a `None` return meaning
"no content this frame"; with no extractor configured, string frames
pass through (empty frames yield nothing) and structured values drop. -/
def processFrame (cfg : SanitizeCfg) (frame : String) : FrameStep :=
  if cfg.skipMarkers.contains (pyStrip frame) then .terminate
  else if cfg.skipRegexes.any (fun p => p frame) then .skip
  else if !cfg.extractRegexes.isEmpty then
    match firstExtract cfg.extractRegexes frame with
    | some cap => .emit (.jstr (uEscStr cap))
    | none => .skip
  else
    let decoded : Option JVal :=
      if cfg.toJson then
        match jsonLoads frame with
        | some v => some v
        | none => if cfg.yieldRawOnError then some (.jstr frame) else none
      else some (.jstr frame)
    match decoded with
    | none => .skip
    | some v =>
      match cfg.contentExtractor with
      | some f =>
        match f v with
        | some c => .emit c
        | none => .skip
      | none =>
        match v with
        | .jstr s => if s.isEmpty then .skip else .emit (.jstr s)
        | _ => .skip

/-- Drive `processFrame` over a frame list, stopping at a sentinel. -/
def runFrames (cfg : SanitizeCfg) : List String → List JVal
  | [] => []
  | f :: rest =>
    match processFrame cfg f with
    | .terminate => []
    | .skip => runFrames cfg rest
    | .emit v => v :: runFrames cfg rest

/-- `sanitize_stream`: the composed pipeline from raw text chunks to
extracted content values. -/
def sanitizeStream (cfg : SanitizeCfg) (chunks : List String) : List JVal :=
  runFrames cfg (splitFrames cfg.intro chunks)

/-! ## Models of the concrete regular expressions used by K2Think

`K2Think.ask` passes literal regex patterns to `sanitize_stream`; each is
modelled here as a matcher function with `re.search` semantics
(match anywhere in the frame text, lazy quantifiers take the first
closing occurrence). -/

/-- `r'^\s*$'`: the frame text consists only of whitespace. -/
def reBlank (s : String) : Bool := s.toList.all isPySpace

/-- Helper for `reDataDone`: scan every start position. -/
def scanDataDone : List Char → Bool
  | [] => false
  | c :: rest =>
    (startsWithL "data:".toList (c :: rest) &&
      startsWithL "[DONE]".toList ((dropL 5 (c :: rest)).dropWhile isPySpace))
    || scanDataDone rest

/-- `r'data:\s*\[DONE\]'`: `data:` followed by whitespace and `[DONE]`,
anywhere in the frame text. -/
def reDataDone (s : String) : Bool := scanDataDone s.toList

/-- Helper for `reDataEnd`: scan every start position. -/
def scanDataEnd : List Char → Bool
  | [] => false
  | c :: rest =>
    (startsWithL "data:".toList (c :: rest) && (dropL 5 (c :: rest)).all isPySpace)
    || scanDataEnd rest

/-- `r'data:\s*$'`: `data:` followed only by whitespace to the end. -/
def reDataEnd (s : String) : Bool := scanDataEnd s.toList

/-- `r'^\s*\{\s*\}\s*$'`: an empty JSON object, modulo whitespace. -/
def reEmptyJson (s : String) : Bool :=
  match (s.toList.dropWhile isPySpace) with
  | '{' :: rest =>
    match rest.dropWhile isPySpace with
    | '}' :: rest' => rest'.all isPySpace
    | _ => false
  | _ => false

/-- `r'<details type="reasoning"[^>]*>.*?<\/details>'`: a reasoning
details block — the literal opening, its closing `>`, then a
`</details>` later in the frame. -/
def reDetailsReasoning (s : String) : Bool :=
  match findAfterSub "<details type=\"reasoning\"".toList s.toList with
  | none => false
  | some afterTag =>
    match findAfterSub ['>'] afterTag with
    | none => false
    | some afterGt => containsSub "</details>".toList afterGt

/-- `r'<answer>([\s\S]*?)<\/answer>'`: capture between the first
`<answer>` and the first `</answer>` after it. -/
def k2AnswerExtract (s : String) : Option String :=
  match findAfterSub "<answer>".toList s.toList with
  | none => none
  | some after => (takeUntilSub "</answer>".toList after).map String.mk

/-- `r'<details type="reasoning"[^>]*>.*?<summary>.*?<\/summary>([\s\S]*?)<\/details>'`:
capture the reasoning text between `</summary>` and `</details>`. -/
def k2ReasoningExtract (s : String) : Option String :=
  match findAfterSub "<details type=\"reasoning\"".toList s.toList with
  | none => none
  | some a1 =>
    match findAfterSub ['>'] a1 with
    | none => none
    | some a2 =>
      match findAfterSub "<summary>".toList a2 with
      | none => none
      | some a3 =>
        match findAfterSub "</summary>".toList a3 with
        | none => none
        | some a4 => (takeUntilSub "</details>".toList a4).map String.mk

/-- The `sanitize_stream` configuration of `K2Think.ask.for_stream`
(`K2Think.py` lines 169–192): answer extraction only, with the
reasoning-details skip rule. -/
def k2StreamCfg : SanitizeCfg :=
  { intro := some "data:"
    toJson := false
    skipRegexes := [reBlank, reDataDone, reDataEnd, reEmptyJson, reDetailsReasoning]
    extractRegexes := [k2AnswerExtract]
    yieldRawOnError := false }

/-- The `sanitize_stream` configuration of `K2Think.ask.for_non_stream`
(`K2Think.py` lines 224–247): answer and reasoning extraction, and no
reasoning-details skip rule. -/
def k2NonStreamCfg : SanitizeCfg :=
  { intro := some "data:"
    toJson := false
    skipRegexes := [reBlank, reDataDone, reDataEnd, reEmptyJson]
    extractRegexes := [k2AnswerExtract, k2ReasoningExtract]
    yieldRawOnError := false }

/-! ## Provider content extractors (C8)

Translated from the source; `Except String` carries the name of the
Python exception the extractor raises on that input. -/

/-- Inner loop of `Apriel._apriel_extractor`:
`for op in ops: if isinstance(op, list) and len(op) > 2 and op[0] == "append": return op[2]`. -/
def aprielScanOps : List JVal → Option JVal
  | [] => none
  | .jarr (a :: _ :: c :: _) :: rest =>
    match a with
    | .jstr s => if s = "append" then some c else aprielScanOps rest
    | _ => aprielScanOps rest
  | _ :: rest => aprielScanOps rest

/-- `Apriel._apriel_extractor` (`Apriel.py` lines 145–158).  Raises
`AttributeError` when `chunk["output"]` is not a dict (`output.get`),
and `TypeError` when `chunk["output"]["data"][0]` is not iterable
(`for op in ops`); iterating a string or dict finds no list element. -/
def aprielExtractor (chunk : JVal) : Except String (Option JVal) :=
  match chunk with
  | .jobj fields =>
    match JVal.lookup fields "msg" with
    | some (.jstr m) =>
      if m = "process_generating" then
        let output := (JVal.lookup fields "output").getD (.jobj [])
        match output with
        | .jobj ofields =>
          match JVal.lookup ofields "data" with
          | some (.jarr (ops :: _)) =>
            match ops with
            | .jarr opsList => .ok (aprielScanOps opsList)
            | .jstr _ => .ok none
            | .jobj _ => .ok none
            | _ => .error "TypeError"
          | _ => .ok none
        | _ => .error "AttributeError"
      else .ok none
    | _ => .ok none
  | _ => .ok none

/-- The `content_extractor` lambda of `GMI.ask.for_stream`
(`GMI.py` line 187):
`chunk.get("choices", [{}])[0].get("delta", {}).get("content") if isinstance(chunk, dict) and chunk.get("choices") else None`.
Raises when the truthy `choices` value cannot be subscripted with `0`
or its first element has no `.get`. -/
def gmiExtractor (chunk : JVal) : Except String (Option JVal) :=
  match chunk with
  | .jobj fields =>
    let choices := JVal.lookup fields "choices"
    if (choices.map JVal.truthy).getD false then
      match choices with
      | some (.jarr (c0 :: _)) =>
        match c0 with
        | .jobj cf =>
          let delta := (JVal.lookup cf "delta").getD (.jobj [])
          match delta with
          | .jobj df => .ok (JVal.lookup df "content")
          | _ => .error "AttributeError"
        | _ => .error "AttributeError"
      | some (.jstr _) => .error "AttributeError"
      | some (.jobj _) => .error "KeyError"
      | _ => .error "TypeError"
    else .ok none
  | _ => .ok none

/-- `SciraChat._scira_extractor` (`scira_chat.py` lines 183–196): strip
a `data: ` prefix, map `[DONE]` to a `done` event, otherwise
`json.loads` with decode failures mapped to `None`.  Total. -/
def sciraExtractor (v : JVal) : Option JVal :=
  match v with
  | .jstr chunk =>
    if startsWithL "data: ".toList chunk.toList then
      let jsonStr := pyStrip (String.mk (chunk.toList.drop 6))
      if jsonStr = "[DONE]" then some (.jobj [("type", .jstr "done")])
      else jsonLoads jsonStr
    else none
  | _ => none

/-- The `sanitize_stream` configuration of `SciraChat.ask.for_stream`
(`scira_chat.py` lines 263–269): no intro prefix, no JSON decoding in
the core, the provider extractor doing both. -/
def sciraCfg : SanitizeCfg :=
  { intro := none
    toJson := false
    contentExtractor := some sciraExtractor
    yieldRawOnError := false }

/-! ## Provider streaming loops (`ask.for_stream` / `ask.for_non_stream`)

The values a provider's `for_stream` generator emits, the history
commits it performs, and the error it raises are computed as a function
of the content chunks delivered by `sanitize_stream` and of how the
stream run ends: normal exhaustion, a transport (`CurlError`) failure
while pulling the next chunk, or the consumer closing the generator
after a prefix (`GeneratorExit`). -/

/-- One value yielded by a provider generator: the `{"text": …}`
envelope (`resp = dict(text=…)`) or a bare pass-through value. -/
inductive PResp where
  | envelope (v : JVal)
  | bare (v : JVal)

/-- How a streaming run ends. `consumed` counts the source chunks fully
processed before a transport error is raised / the consumer abandons
iteration at the following yield point. -/
inductive StreamExit where
  | normal
  | errorAt (consumed : Nat) (msg : String)
  | abandonAt (consumed : Nat)

/-- Chunks processed before the run's interruption point. -/
def exitChunks (chunks : List JVal) : StreamExit → List JVal
  | .normal => chunks
  | .errorAt k _ => chunks.take k
  | .abandonAt k => chunks.take k

/-- Observable effects of one `for_stream` run. -/
structure StreamRun where
  yields : List PResp
  commits : List String
  error : Option String

/-- The chunks that pass the common provider guard
`if content_chunk and isinstance(content_chunk, str):`. -/
def strGuardTexts (chunks : List JVal) : List String :=
  chunks.filterMap fun c =>
    match c with
    | .jstr s => if s.isEmpty then none else some s
    | _ => none

/-- Left-fold accumulation, as in `streaming_text += content_chunk`. -/
def pyConcat (texts : List String) : String := texts.foldl (· ++ ·) ""

/-- `Apriel.ask.for_stream` (`Apriel.py` lines 196–233): guard chunks,
accumulate, yield envelope or bare per `raw`; `CurlError` is wrapped as
`FailedToGenerateResponseError("Request failed (CurlError): …")`; the
`finally` block commits a non-empty accumulator on every exit. -/
def aprielRun (raw : Bool) (chunks : List JVal) (ex : StreamExit) : StreamRun :=
  let texts := strGuardTexts (exitChunks chunks ex)
  let acc := pyConcat texts
  { yields := texts.map fun s => if raw then .bare (.jstr s) else .envelope (.jstr s)
    commits := if acc.isEmpty then [] else [acc]
    error :=
      match ex with
      | .errorAt _ msg => some ("Request failed (CurlError): " ++ msg)
      | _ => none }

/-- `GMI.ask.for_stream` (`GMI.py` lines 168–204): the same loop shape
as Apriel — guard, accumulate, envelope/bare, unconditional `finally`
commit of a non-empty accumulator. -/
def gmiRun (raw : Bool) (chunks : List JVal) (ex : StreamExit) : StreamRun :=
  let texts := strGuardTexts (exitChunks chunks ex)
  let acc := pyConcat texts
  { yields := texts.map fun s => if raw then .bare (.jstr s) else .envelope (.jstr s)
    commits := if acc.isEmpty then [] else [acc]
    error :=
      match ex with
      | .errorAt _ msg => some ("Request failed (CurlError): " ++ msg)
      | _ => none }

/-- The chunks that pass K2Think's streaming guard and cleaning:
`if content_chunk and isinstance(content_chunk, str):` then
`content_cleaned = content_chunk.strip()` kept when non-empty. -/
def k2Texts (chunks : List JVal) : List String :=
  chunks.filterMap fun c =>
    match c with
    | .jstr s =>
      if s.isEmpty then none
      else
        let t := pyStrip s
        if t.isEmpty then none else some t
    | _ => none

/-- `K2Think.ask.for_stream` (`K2Think.py` lines 156–209): strip each
chunk, accumulate the cleaned text, and always yield the
`{"text": …}` envelope — the `raw` flag is never consulted; the
`finally` block commits a non-empty accumulator on every exit. -/
def k2thinkRun (_raw : Bool) (chunks : List JVal) (ex : StreamExit) : StreamRun :=
  let texts := k2Texts (exitChunks chunks ex)
  let acc := pyConcat texts
  { yields := texts.map fun s => .envelope (.jstr s)
    commits := if acc.isEmpty then [] else [acc]
    error :=
      match ex with
      | .errorAt _ msg => some ("Request failed (CurlError): " ++ msg)
      | _ => none }

/-- `TurboSeek.ask.for_stream` (`turboseek.py` lines 157–200): `None`
chunks are skipped; with `raw` every remaining chunk is yielded bare and
nothing is accumulated; otherwise guarded string chunks are accumulated
and yielded in envelopes.  The history commit sits at the end of the
`try` body — it runs only on normal exhaustion, not on error or
abandonment. -/
def turboseekRun (raw : Bool) (chunks : List JVal) (ex : StreamExit) : StreamRun :=
  let processed := exitChunks chunks ex
  let texts := if raw then [] else strGuardTexts processed
  let acc := pyConcat texts
  { yields :=
      if raw then
        processed.filterMap fun c =>
          match c with
          | .jnull => none
          | v => some (.bare v)
      else texts.map fun s => .envelope (.jstr s)
    commits :=
      match ex with
      | .normal => if acc.isEmpty then [] else [acc]
      | _ => []
    error :=
      match ex with
      | .errorAt _ msg => some ("Request failed (CurlError): " ++ msg)
      | _ => none }

/-- `TwoAI.ask.for_stream` (`TwoAI.py` lines 201–252): the loop shape of
Apriel, but the history commit runs unconditionally in the `try` body on
normal completion, while the `finally` commit is guarded by
`if streaming_text and not self.last_response` — `lastEmpty` says
whether `self.last_response` is still falsy when the run starts. -/
def twoaiRun (lastEmpty raw : Bool) (chunks : List JVal) (ex : StreamExit) : StreamRun :=
  let texts := strGuardTexts (exitChunks chunks ex)
  let acc := pyConcat texts
  { yields := texts.map fun s => if raw then .bare (.jstr s) else .envelope (.jstr s)
    commits :=
      match ex with
      | .normal => [acc]
      | _ => if !acc.isEmpty && lastEmpty then [acc] else []
    error :=
      match ex with
      | .errorAt _ msg => some ("Request failed (CurlError): " ++ msg)
      | _ => none }

/-- Whether `self.last_response` is still falsy after a `TwoAI` run
(both commit sites also set `self.last_response`). -/
def twoaiLastEmptyAfter (lastEmpty raw : Bool) (chunks : List JVal) (ex : StreamExit) : Bool :=
  ((twoaiRun lastEmpty raw chunks ex).commits.isEmpty) && lastEmpty

/-- `SciraChat.ask.for_stream` inner loop (`scira_chat.py` lines
271–309): a think-tag state machine over extracted event dicts.
Returns the yields, the accumulated `streaming_response`, and whether
the loop died on `streaming_response += delta` with a non-string delta
(`TypeError`). -/
def sciraGo (raw inThink : Bool) (chunks : List JVal) : List PResp × String × Bool :=
  match chunks with
  | [] => ([], "", false)
  | c :: rest =>
    match c with
    | .jnull => sciraGo raw inThink rest
    | .jobj fields =>
      match JVal.lookup fields "type" with
      | some (.jstr t) =>
        if t = "reasoning-start" then
          if !inThink then
            let (ys, acc, err) := sciraGo raw true rest
            (.bare (.jstr "<think>\n\n") :: ys, acc, err)
          else sciraGo raw inThink rest
        else if t = "reasoning-delta" then
          if inThink then
            let delta := (JVal.lookup fields "delta").getD (.jstr "")
            let (ys, acc, err) := sciraGo raw inThink rest
            if raw then (.bare delta :: ys, acc, err)
            else (.envelope delta :: ys, acc, err)
          else sciraGo raw inThink rest
        else if t = "reasoning-end" then
          if inThink then
            let (ys, acc, err) := sciraGo raw false rest
            (.bare (.jstr "</think>\n\n") :: ys, acc, err)
          else sciraGo raw inThink rest
        else if t = "text-delta" then
          let delta := (JVal.lookup fields "delta").getD (.jstr "")
          if raw then
            let (ys, acc, err) := sciraGo raw inThink rest
            (.bare delta :: ys, acc, err)
          else
            match delta with
            | .jstr s =>
              let (ys, acc, err) := sciraGo raw inThink rest
              (.envelope (.jstr s) :: ys, s ++ acc, err)
            | _ => ([], "", true)
        else if t = "done" then ([], "", false)
        else sciraGo raw inThink rest
      | _ => sciraGo raw inThink rest
    | _ => sciraGo raw inThink rest

/-- A normally-completing `SciraChat.ask.for_stream` run: after the
loop, `if not raw:` the accumulated response is committed
unconditionally. -/
def sciraRunNormal (raw : Bool) (chunks : List JVal) : StreamRun :=
  let (ys, acc, err) := sciraGo raw false chunks
  { yields := ys
    commits := if !raw && !err then [acc] else []
    error := if err then some ("Request failed (TypeError): …") else none }

/-! ## `ask()` dispatch (streaming vs. non-streaming shape) -/

/-- What one `ask()` call hands back: a lazily-consumed generator
object, a single final value, or a raised
`FailedToGenerateResponseError`. -/
inductive AskResult where
  | generator (yields : List PResp)
  | single (v : JVal)
  | failed (msg : String)

/-- Whether an `ask()` return value is a generator object. -/
def AskResult.isGenerator : AskResult → Bool
  | .generator _ => true
  | _ => false

/-- `Apriel.ask` (`Apriel.py` lines 196–240): `for_stream() if stream
else for_non_stream()`; the non-streaming arm drains `for_stream`
(whose `finally` rewrites `self.last_response` only when the
accumulator is non-empty) and returns `self.last_response`, or its
`"text"` entry under `raw`. -/
def apriel_ask (lastResp : List (String × JVal)) (stream raw : Bool)
    (chunks : List JVal) : AskResult :=
  if stream then .generator (aprielRun raw chunks .normal).yields
  else
    let acc := pyConcat (strGuardTexts chunks)
    let lastResp' := if acc.isEmpty then lastResp else [("text", JVal.jstr acc)]
    if raw then .single ((JVal.lookup lastResp' "text").getD (.jstr ""))
    else .single (.jobj lastResp')

/-- `K2Think.ask` (`K2Think.py` lines 211–267): the non-streaming arm
runs its own drain loop — strip each guarded chunk, decode
`unicode_escape` sequences, accumulate — and returns `{"text": …}`, or
the bare accumulated string under `raw`. -/
def k2think_ask (stream raw : Bool) (chunks : List JVal) : AskResult :=
  if stream then .generator (k2thinkRun raw chunks .normal).yields
  else
    let acc := pyConcat ((k2Texts chunks).map uEscStr)
    if raw then .single (.jstr acc)
    else .single (.jobj [("text", .jstr acc)])

/-- Sum the textual content of drained generator yields, as
`TurboSeek.ask.for_non_stream` does
(`full_text += chunk_data["text"]` for envelope dicts,
`full_text += chunk_data` for bare strings). -/
def sumYieldTexts (ys : List PResp) : String :=
  pyConcat (ys.filterMap fun y =>
    match y with
    | .envelope (.jstr s) => some s
    | .bare (.jstr s) => some s
    | _ => none)

/-- `TurboSeek.ask` (`turboseek.py` lines 157–213): the non-streaming
arm drains `for_stream`, sums the text, sets
`self.last_response = {"text": full_text}` and returns it. -/
def turboseek_ask (stream raw : Bool) (chunks : List JVal) : AskResult :=
  if stream then .generator (turboseekRun raw chunks .normal).yields
  else
    let fullText := sumYieldTexts (turboseekRun raw chunks .normal).yields
    .single (.jobj [("text", .jstr fullText)])

/-- The body of `GMI.ask.for_non_stream` (`GMI.py` lines 206–237): parse
the whole response body as JSON — a `JSONDecodeError` falls back to the
raw body text — then walk
`data.get("choices", [{}])[0].get("message", {}).get("content", "")`;
an error raised by that walk is caught by the outer `except` and
wrapped. -/
def gmiNonStreamContent (body : String) : Except String JVal :=
  match jsonLoads body with
  | none => .ok (.jstr body)
  | some j =>
    match j with
    | .jobj fs =>
      match (JVal.lookup fs "choices").getD (.jarr [.jobj []]) with
      | .jarr (c0 :: _) =>
        match c0 with
        | .jobj cf =>
          match (JVal.lookup cf "message").getD (.jobj []) with
          | .jobj mf => .ok ((JVal.lookup mf "content").getD (.jstr ""))
          | _ => .error "AttributeError"
        | _ => .error "AttributeError"
      | .jarr [] => .error "IndexError"
      | .jstr s => if s.isEmpty then .error "IndexError" else .error "AttributeError"
      | .jobj _ => .error "KeyError"
      | _ => .error "TypeError"
    | _ => .error "AttributeError"

/-- `GMI.ask` (`GMI.py` lines 168–239): the non-streaming arm does not
drain the stream at all — it issues a separate non-streaming request
and decodes its whole body. -/
def gmi_ask (stream raw : Bool) (chunks : List JVal) (body : String) : AskResult :=
  if stream then .generator (gmiRun raw chunks .normal).yields
  else
    match gmiNonStreamContent body with
    | .ok c => if raw then .single c else .single (.jobj [("text", c)])
    | .error e => .failed ("Request failed (" ++ e ++ ")")

/-- `TwoAI.ask` (`TwoAI.py` lines 150–273): the final statement is
`return for_stream()` — the `stream` parameter is never consulted and
`for_non_stream` is never called. -/
def twoai_ask (lastEmpty : Bool) (_stream raw : Bool) (chunks : List JVal) : AskResult :=
  .generator (twoaiRun lastEmpty raw chunks .normal).yields

/-! ## The `__available_optimizers` generator (C5)

Every provider `__init__` builds
`self.__available_optimizers = (m for m in dir(Optimizers) …)` — a
generator expression — and `ask` tests
`optimizer in self.__available_optimizers`.  Python's `in` pulls items
from the generator until a match (consuming them permanently) and
exhausts it entirely when there is no match. -/

/-- `x in gen` on a generator holding the remaining items: the
membership verdict and the items left afterwards. -/
def genMemberConsume (x : String) : List String → Bool × List String
  | [] => (false, [])
  | a :: rest => if a = x then (true, rest) else genMemberConsume x rest

/-! ## The OpenAI-compatible K2Think adapter (C10)

`webscout/Provider/OPENAI/K2Think.py`. -/

/-- Replace all non-overlapping occurrences of `pat` left-to-right,
with step-counting fuel. -/
def replaceSubAux (fuel : Nat) (pat repl cs : List Char) : List Char :=
  match fuel with
  | 0 => cs
  | fuel + 1 =>
    match cs with
    | [] => []
    | c :: rest =>
      if !pat.isEmpty && startsWithL pat (c :: rest) then
        repl ++ replaceSubAux fuel pat repl (dropL pat.length (c :: rest))
      else c :: replaceSubAux fuel pat repl rest

/-- Python `str.replace`. -/
def pyReplace (s pat repl : String) : String :=
  String.mk (replaceSubAux s.toList.length pat.toList repl.toList s.toList)

/-- `json.loads` of `'"' + text + '"'`: decode a JSON string literal,
failing on stray quotes or raw control characters. -/
def jsonStrDecode (t : String) : Option String :=
  match jsonLoads ("\"" ++ t ++ "\"") with
  | some (.jstr s) => some s
  | _ => none

/-- `K2Think.format_text` (`OPENAI/K2Think.py` lines 365–401): a chain
of escape replacements followed by a JSON string-literal decode
fallback. -/
def formatText (text : String) : String :=
  let t := pyReplace text "\\\\" "\\"
  let t := pyReplace t "\\n" "\n"
  let t := pyReplace t "\\r" "\r"
  let t := pyReplace t "\\t" "\t"
  let t := pyReplace t "\\\"" "\""
  let t := pyReplace t "\\'" "'"
  match jsonStrDecode t with
  | some d => d
  | none => t

/-- `Completions._create_stream` content loop (`OPENAI/K2Think.py`
lines 94–160): per line, extract the `<answer>` capture; skip falsy
content; format it; skip it when already in `seen_content`, else record
and emit it. -/
def oaiK2StreamGo (seen : List String) : List String → List String
  | [] => []
  | line :: rest =>
    if line.isEmpty then oaiK2StreamGo seen rest
    else
      match k2AnswerExtract line with
      | some cap =>
        if cap.isEmpty then oaiK2StreamGo seen rest
        else if seen.contains (formatText cap) then oaiK2StreamGo seen rest
        else formatText cap :: oaiK2StreamGo (formatText cap :: seen) rest
      | none => oaiK2StreamGo seen rest

/-- The content deltas `_create_stream` emits for a given line
sequence. -/
def oaiK2StreamContents (lines : List String) : List String :=
  oaiK2StreamGo [] lines

/-- `Completions._create_non_stream` collection loop (`OPENAI/K2Think.py`
lines 219–234): per line, the raw `<answer>` capture is appended to
`full_text` unless already in `seen_content_parts`. -/
def oaiK2NonStreamGo (seen : List String) : List String → List String
  | [] => []
  | line :: rest =>
    if line.isEmpty then oaiK2NonStreamGo seen rest
    else
      match k2AnswerExtract line with
      | some cap =>
        if seen.contains cap then oaiK2NonStreamGo seen rest
        else cap :: oaiK2NonStreamGo (cap :: seen) rest
      | none => oaiK2NonStreamGo seen rest

/-- The deduplicated capture parts `_create_non_stream` appends. -/
def oaiK2NonStreamParts (lines : List String) : List String :=
  oaiK2NonStreamGo [] lines

/-- The final `content` of the non-streaming completion:
`format_text` applied to the joined parts. -/
def oaiK2NonStreamFullText (lines : List String) : String :=
  formatText (pyConcat (oaiK2NonStreamParts lines))

/-! ## End-to-end K2Think text assembly (C1) -/

/-- The string obtained by joining all deltas of
`K2Think.ask(prompt, stream=True)` over a complete upstream byte
stream. -/
def k2AskStreamJoined (chunks : List String) : String :=
  pyConcat (k2Texts (sanitizeStream k2StreamCfg chunks))

/-- The string inside the single result of
`K2Think.ask(prompt, stream=False)` over the same upstream byte
stream. -/
def k2AskNonStreamText (chunks : List String) : String :=
  pyConcat ((k2Texts (sanitizeStream k2NonStreamCfg chunks)).map uEscStr)

/-! ## Accumulator views used by the theorems -/

/-- The accumulated `streaming_text` of an Apriel/GMI/TwoAI/TurboSeek
style loop at the point the run exits. -/
def strAccAt (chunks : List JVal) (ex : StreamExit) : String :=
  pyConcat (strGuardTexts (exitChunks chunks ex))

/-- The accumulated `streaming_text` of the K2Think streaming loop at
the point the run exits. -/
def k2AccAt (chunks : List JVal) (ex : StreamExit) : String :=
  pyConcat (k2Texts (exitChunks chunks ex))

/-- Test for the emit outcome of `processFrame`. -/
def FrameStep.isEmit : FrameStep → Bool
  | .emit _ => true
  | _ => false

/-- Test for a non-empty-text envelope yield. -/
def PResp.envNonempty : PResp → Bool
  | .envelope (.jstr s) => !s.isEmpty
  | _ => false

/-- Test for a dict value. -/
def JVal.isObj : JVal → Bool
  | .jobj _ => true
  | _ => false

/-! ## Helper lemmas -/

theorem sumYieldTexts_map_env (texts : List String) :
    sumYieldTexts (texts.map fun s => PResp.envelope (.jstr s)) = pyConcat texts := by
  unfold sumYieldTexts
  rw [List.filterMap_map]
  have : ∀ t : List String, t.filterMap
      ((fun y => match y with
        | .envelope (.jstr s) => some s
        | .bare (.jstr s) => some s
        | _ => none) ∘ fun s => PResp.envelope (.jstr s)) = t := by
    intro t
    induction t with
    | nil => rfl
    | cons a t ih => simp [List.filterMap_cons, Function.comp, ih]
  rw [this]

theorem strGuardTexts_mem_ne (chunks : List JVal) (s : String)
    (h : s ∈ strGuardTexts chunks) : s.isEmpty = false := by
  unfold strGuardTexts at h
  rw [List.mem_filterMap] at h
  obtain ⟨c, _, heq⟩ := h
  cases c with
  | jstr t =>
    by_cases ht : t.isEmpty
    · simp [ht] at heq
    · simp [ht] at heq
      rw [← heq]
      simpa using ht
  | jnull => simp at heq
  | jbool b => simp at heq
  | jnum n => simp at heq
  | jarr xs => simp at heq
  | jobj fs => simp at heq

theorem k2Texts_mem_ne (chunks : List JVal) (s : String)
    (h : s ∈ k2Texts chunks) : s.isEmpty = false := by
  unfold k2Texts at h
  rw [List.mem_filterMap] at h
  obtain ⟨c, _, heq⟩ := h
  cases c with
  | jstr t =>
    by_cases ht : t.isEmpty
    · simp [ht] at heq
    · by_cases hs : (pyStrip t).isEmpty
      · simp [ht, hs] at heq
      · simp [ht, hs] at heq
        rw [← heq]
        simpa using hs
  | jnull => simp at heq
  | jbool b => simp at heq
  | jnum n => simp at heq
  | jarr xs => simp at heq
  | jobj fs => simp at heq

theorem oaiK2StreamGo_not_seen (lines : List String) :
    ∀ (seen : List String) (x : String), x ∈ oaiK2StreamGo seen lines → x ∉ seen := by
  induction lines with
  | nil => intro seen x hx; simp [oaiK2StreamGo] at hx
  | cons line rest ih =>
    intro seen x hx hseen
    unfold oaiK2StreamGo at hx
    split at hx
    · exact ih seen x hx hseen
    · split at hx
      · split at hx
        · exact ih seen x hx hseen
        · split at hx
          · exact ih seen x hx hseen
          · rename_i hc
            rcases List.mem_cons.mp hx with h | h
            · subst h
              exact hc (List.elem_iff.mpr hseen)
            · exact (ih _ x h) (List.mem_cons_of_mem _ hseen)
      · exact ih seen x hx hseen

theorem oaiK2StreamGo_nodup (lines : List String) :
    ∀ seen : List String, (oaiK2StreamGo seen lines).Nodup := by
  induction lines with
  | nil => intro seen; simp [oaiK2StreamGo]
  | cons line rest ih =>
    intro seen
    unfold oaiK2StreamGo
    split
    · exact ih seen
    · split
      · split
        · exact ih seen
        · split
          · exact ih seen
          · exact List.nodup_cons.mpr
              ⟨fun hx => (oaiK2StreamGo_not_seen rest _ _ hx) (List.mem_cons_self _ _),
               ih _⟩
      · exact ih seen

theorem oaiK2NonStreamGo_not_seen (lines : List String) :
    ∀ (seen : List String) (x : String), x ∈ oaiK2NonStreamGo seen lines → x ∉ seen := by
  induction lines with
  | nil => intro seen x hx; simp [oaiK2NonStreamGo] at hx
  | cons line rest ih =>
    intro seen x hx hseen
    unfold oaiK2NonStreamGo at hx
    split at hx
    · exact ih seen x hx hseen
    · split at hx
      · split at hx
        · exact ih seen x hx hseen
        · rename_i hc
          rcases List.mem_cons.mp hx with h | h
          · subst h
            exact hc (List.elem_iff.mpr hseen)
          · exact (ih _ x h) (List.mem_cons_of_mem _ hseen)
      · exact ih seen x hx hseen

theorem oaiK2NonStreamGo_nodup (lines : List String) :
    ∀ seen : List String, (oaiK2NonStreamGo seen lines).Nodup := by
  induction lines with
  | nil => intro seen; simp [oaiK2NonStreamGo]
  | cons line rest ih =>
    intro seen
    unfold oaiK2NonStreamGo
    split
    · exact ih seen
    · split
      · split
        · exact ih seen
        · exact List.nodup_cons.mpr
            ⟨fun hx => (oaiK2NonStreamGo_not_seen rest _ _ hx) (List.mem_cons_self _ _),
             ih _⟩
      · exact ih seen

/-- C10: the OpenAI-compatible K2Think adapter emits each distinct
extracted content segment at most once per request — the deltas of
`_create_stream` and the appended capture parts of `_create_non_stream`
contain no duplicates, so a repeated identical capture is skipped /
not appended. -/
theorem c10_k2think_adapter_dedupes (lines : List String) :
    (oaiK2StreamContents lines).Nodup ∧ (oaiK2NonStreamParts lines).Nodup :=
  ⟨oaiK2StreamGo_nodup lines [], oaiK2NonStreamGo_nodup lines []⟩

theorem aprielRun_yields_false (chunks : List JVal) (ex : StreamExit) :
    (aprielRun false chunks ex).yields
      = (strGuardTexts (exitChunks chunks ex)).map (fun s => PResp.envelope (.jstr s)) := by
  simp [aprielRun]

theorem aprielRun_yields_true (chunks : List JVal) (ex : StreamExit) :
    (aprielRun true chunks ex).yields
      = (strGuardTexts (exitChunks chunks ex)).map (fun s => PResp.bare (.jstr s)) := by
  simp [aprielRun]

theorem gmiRun_yields_false (chunks : List JVal) (ex : StreamExit) :
    (gmiRun false chunks ex).yields
      = (strGuardTexts (exitChunks chunks ex)).map (fun s => PResp.envelope (.jstr s)) := by
  simp [gmiRun]

theorem gmiRun_yields_true (chunks : List JVal) (ex : StreamExit) :
    (gmiRun true chunks ex).yields
      = (strGuardTexts (exitChunks chunks ex)).map (fun s => PResp.bare (.jstr s)) := by
  simp [gmiRun]

theorem twoaiRun_yields_false (lastEmpty : Bool) (chunks : List JVal) (ex : StreamExit) :
    (twoaiRun lastEmpty false chunks ex).yields
      = (strGuardTexts (exitChunks chunks ex)).map (fun s => PResp.envelope (.jstr s)) := by
  simp [twoaiRun]

theorem twoaiRun_yields_true (lastEmpty : Bool) (chunks : List JVal) (ex : StreamExit) :
    (twoaiRun lastEmpty true chunks ex).yields
      = (strGuardTexts (exitChunks chunks ex)).map (fun s => PResp.bare (.jstr s)) := by
  simp [twoaiRun]

theorem turboseekRun_yields_false (chunks : List JVal) (ex : StreamExit) :
    (turboseekRun false chunks ex).yields
      = (strGuardTexts (exitChunks chunks ex)).map (fun s => PResp.envelope (.jstr s)) := by
  simp [turboseekRun]

theorem turboseekRun_yields_true (chunks : List JVal) (ex : StreamExit) :
    (turboseekRun true chunks ex).yields
      = (exitChunks chunks ex).filterMap (fun c =>
          match c with
          | JVal.jnull => none
          | v => some (PResp.bare v)) := by
  simp [turboseekRun]

theorem filterMap_bare_jstr (texts : List String) :
    (texts.map JVal.jstr).filterMap (fun c =>
        match c with
        | JVal.jnull => none
        | v => some (PResp.bare v))
      = texts.map (fun s => PResp.bare (.jstr s)) := by
  induction texts with
  | nil => rfl
  | cons a t ih => simp [List.filterMap_cons, ih]

theorem k2thinkRun_yields (raw : Bool) (chunks : List JVal) (ex : StreamExit) :
    (k2thinkRun raw chunks ex).yields
      = (k2Texts (exitChunks chunks ex)).map (fun s => PResp.envelope (.jstr s)) := rfl

theorem all_envNonempty_map (texts : List String)
    (h : ∀ s ∈ texts, s.isEmpty = false) :
    ((texts.map fun s => PResp.envelope (.jstr s)).all PResp.envNonempty) = true := by
  rw [List.all_eq_true]
  intro y hy
  rw [List.mem_map] at hy
  obtain ⟨s, hs, rfl⟩ := hy
  simp [PResp.envNonempty, h s hs]

/-- C8 (corrected), counterexample: `Apriel._apriel_extractor` raises
`AttributeError` on the JSON-derived dict frame
`{"msg": "process_generating", "output": 5}` (calling `.get` on the
integer), and the GMI extractor lambda raises `TypeError` on
`{"choices": true}` (subscripting a bool) — so provider extractors are
not total on all string/JSON-derived frames. -/
theorem c8_counterexample :
    aprielExtractor (.jobj [("msg", .jstr "process_generating"), ("output", .jnum 5)])
      = .error "AttributeError" ∧
    gmiExtractor (.jobj [("choices", .jbool true)]) = .error "TypeError" :=
  ⟨rfl, rfl⟩

/-- C8 (amended): provider `content_extractor`s are side-effect-free
mappings that, on every decoded frame that is not a dict (strings,
lists, scalars), return `None` without raising; on dict frames whose
nested fields have unexpected types they may raise. -/
theorem c8_extractors_total_on_nonobj (v : JVal) (h : v.isObj = false) :
    aprielExtractor v = .ok none ∧ gmiExtractor v = .ok none := by
  cases v with
  | jobj fs => simp [JVal.isObj] at h
  | jnull => exact ⟨rfl, rfl⟩
  | jbool b => exact ⟨rfl, rfl⟩
  | jnum n => exact ⟨rfl, rfl⟩
  | jstr s => exact ⟨rfl, rfl⟩
  | jarr xs => exact ⟨rfl, rfl⟩

/-- Witness for C8 (amended) at the string frame `"frame"`. -/
theorem c8_extractors_total_on_nonobj_witness :
    (JVal.jstr "frame").isObj = false ∧
    (aprielExtractor (.jstr "frame") = .ok none ∧ gmiExtractor (.jstr "frame") = .ok none) :=
  ⟨rfl, c8_extractors_total_on_nonobj (.jstr "frame") rfl⟩

/-- C5 (corrected), counterexample: after a first `ask()` validates
`"code"`, the generator still holds `["shell_command"]`, and a second
`ask()` passing the valid name `"shell_command"` still validates —
it applies the optimizer instead of raising. -/
theorem c5_counterexample :
    genMemberConsume "code" ["code", "shell_command"] = (true, ["shell_command"]) ∧
    (genMemberConsume "shell_command"
      (genMemberConsume "code" ["code", "shell_command"]).2).1 = true :=
  ⟨rfl, rfl⟩

theorem genMemberConsume_not_mem (x : String) (l : List String) (h : x ∉ l) :
    (genMemberConsume x l).1 = false := by
  induction l with
  | nil => rfl
  | cons a rest ih =>
    unfold genMemberConsume
    by_cases hax : a = x
    · exact absurd (hax ▸ List.mem_cons_self a rest) h
    · simp only [hax, if_false]
      exact ih (fun hm => h (List.mem_cons_of_mem _ hm))

/-- C5 (amended): the `in` test consumes the optimizer generator up to
and including the first match, so a second `ask()` on the same instance
passing the *same* optimizer name (or any name not strictly later in
the iteration order) fails validation and raises; names strictly later
still succeed. -/
theorem c5_optimizer_generator_consumed (g : List String) (x : String)
    (hnd : g.Nodup) (hx : x ∈ g) :
    (genMemberConsume x g).1 = true ∧
    (genMemberConsume x (genMemberConsume x g).2).1 = false := by
  induction g with
  | nil => simp at hx
  | cons a rest ih =>
    by_cases hax : a = x
    · subst hax
      have h1 : genMemberConsume a (a :: rest) = (true, rest) := by
        simp [genMemberConsume]
      rw [h1]
      exact ⟨rfl, genMemberConsume_not_mem a rest (List.nodup_cons.mp hnd).1⟩
    · have h1 : genMemberConsume x (a :: rest) = genMemberConsume x rest := by
        simp [genMemberConsume, hax]
      rw [h1]
      have hxr : x ∈ rest := by
        rcases List.mem_cons.mp hx with h | h
        · exact absurd h.symm hax
        · exact h
      exact ih (List.nodup_cons.mp hnd).2 hxr

/-- Witness for C5 (amended) at the generator `["code", "shell_command"]`
and the name `"code"`. -/
theorem c5_optimizer_generator_consumed_witness :
    (["code", "shell_command"].Nodup ∧ "code" ∈ ["code", "shell_command"]) ∧
    ((genMemberConsume "code" ["code", "shell_command"]).1 = true ∧
     (genMemberConsume "code"
       (genMemberConsume "code" ["code", "shell_command"]).2).1 = false) :=
  ⟨⟨by decide, by decide⟩,
   c5_optimizer_generator_consumed ["code", "shell_command"] "code" (by decide) (by decide)⟩

/-- C6 (corrected), counterexample: `TwoAI.ask(prompt, stream=False)`
hands back the streaming generator object — `ask` ends in
`return for_stream()` without consulting `stream`. -/
theorem c6_counterexample :
    (twoai_ask true false false []).isGenerator = true := rfl

/-- C6 (amended): for Apriel, K2Think, TurboSeek and GMI,
`ask(prompt, stream=False)` returns a single final result (drained
internally where a stream is used), never a generator object; TwoAI's
`ask` returns the streaming generator for every value of `stream`. -/
theorem c6_non_stream_returns_single (lastResp : List (String × JVal))
    (lastEmpty raw stream : Bool) (chunks : List JVal) (body : String) :
    (apriel_ask lastResp false raw chunks).isGenerator = false ∧
    (k2think_ask false raw chunks).isGenerator = false ∧
    (turboseek_ask false raw chunks).isGenerator = false ∧
    (gmi_ask false raw chunks body).isGenerator = false ∧
    (twoai_ask lastEmpty stream raw chunks).isGenerator = true := by
  refine ⟨?_, ?_, ?_, ?_, rfl⟩
  · cases raw <;> simp [apriel_ask, AskResult.isGenerator]
  · cases raw <;> simp [k2think_ask, AskResult.isGenerator]
  · simp [turboseek_ask, AskResult.isGenerator]
  · cases h : gmiNonStreamContent body <;>
      cases raw <;> simp [gmi_ask, AskResult.isGenerator, h]

/-- C7 (corrected), counterexample: `K2Think.ask` in streaming mode
with `raw=True` still yields the `{"text": …}` envelope, not the bare
string. -/
theorem c7_counterexample :
    k2think_ask true true [.jstr "Hello"] = .generator [.envelope (.jstr "Hello")] ∧
    k2think_ask true true [.jstr "Hello"] ≠ .generator [.bare (.jstr "Hello")] := by
  refine ⟨rfl, ?_⟩
  intro h
  rw [show k2think_ask true true [.jstr "Hello"]
        = .generator [.envelope (.jstr "Hello")] from rfl] at h
  have h2 := (AskResult.generator.injEq _ _).mp h
  have h3 := (List.cons.injEq _ _ _ _).mp h2
  exact PResp.noConfusion h3.1

/-- C7 (amended): for the providers whose loops branch on `raw`
(Apriel, GMI, TwoAI, TurboSeek), streaming `ask()` yields the envelope
`{"text": s}` around every extracted string `s` when `raw=False` and
the bare value when `raw=True` — TurboSeek's raw path yields every
non-`None` extracted value bare without a string guard, so in
particular every extracted string `s` is yielded as the bare string —
and the envelope text is exactly what is accumulated into the
transcript; K2Think's streaming path ignores `raw` and always yields
the envelope. -/
theorem c7_envelope_vs_bare (chunks : List JVal) (texts : List String)
    (lastEmpty raw : Bool) (ex : StreamExit) :
    (aprielRun false chunks ex).yields
      = (strGuardTexts (exitChunks chunks ex)).map (fun s => PResp.envelope (.jstr s)) ∧
    (aprielRun true chunks ex).yields
      = (strGuardTexts (exitChunks chunks ex)).map (fun s => PResp.bare (.jstr s)) ∧
    (gmiRun false chunks ex).yields
      = (strGuardTexts (exitChunks chunks ex)).map (fun s => PResp.envelope (.jstr s)) ∧
    (gmiRun true chunks ex).yields
      = (strGuardTexts (exitChunks chunks ex)).map (fun s => PResp.bare (.jstr s)) ∧
    (twoaiRun lastEmpty false chunks ex).yields
      = (strGuardTexts (exitChunks chunks ex)).map (fun s => PResp.envelope (.jstr s)) ∧
    (twoaiRun lastEmpty true chunks ex).yields
      = (strGuardTexts (exitChunks chunks ex)).map (fun s => PResp.bare (.jstr s)) ∧
    (turboseekRun false chunks ex).yields
      = (strGuardTexts (exitChunks chunks ex)).map (fun s => PResp.envelope (.jstr s)) ∧
    (turboseekRun true chunks ex).yields
      = (exitChunks chunks ex).filterMap (fun c =>
          match c with
          | JVal.jnull => none
          | v => some (PResp.bare v)) ∧
    (turboseekRun true (texts.map JVal.jstr) .normal).yields
      = texts.map (fun s => PResp.bare (.jstr s)) ∧
    (k2thinkRun raw chunks ex).yields
      = (k2Texts (exitChunks chunks ex)).map (fun s => PResp.envelope (.jstr s)) ∧
    sumYieldTexts (aprielRun false chunks ex).yields = strAccAt chunks ex :=
  ⟨aprielRun_yields_false chunks ex, aprielRun_yields_true chunks ex,
   gmiRun_yields_false chunks ex, gmiRun_yields_true chunks ex,
   twoaiRun_yields_false lastEmpty chunks ex, twoaiRun_yields_true lastEmpty chunks ex,
   turboseekRun_yields_false chunks ex, turboseekRun_yields_true chunks ex,
   by rw [turboseekRun_yields_true (texts.map JVal.jstr) .normal]
      exact filterMap_bare_jstr texts,
   k2thinkRun_yields raw chunks ex,
   by rw [aprielRun_yields_false chunks ex, sumYieldTexts_map_env]; rfl⟩

/-- C9 (corrected), counterexample: over the upstream byte stream
`data: {"type":"text-delta","delta":""}` the SciraChat streaming loop
with `raw=False` forwards the envelope `{"text": ""}` — an envelope
whose text is the empty string. -/
theorem c9_counterexample :
    (sciraRunNormal false (sanitizeStream sciraCfg
        ["data: \x7b\"type\":\"text-delta\",\"delta\":\"\"\x7d\n"])).yields
      = [.envelope (.jstr "")] ∧
    ((sciraRunNormal false (sanitizeStream sciraCfg
        ["data: \x7b\"type\":\"text-delta\",\"delta\":\"\"\x7d\n"])).yields.all
      PResp.envNonempty) = false :=
  ⟨rfl, rfl⟩

/-- C9 (amended): for Apriel, GMI, K2Think, TurboSeek and TwoAI, every
item the streaming loop yields with `raw=False` is a `{"text": s}`
envelope with `s` a non-empty string — `None`, empty or non-string
extracted chunks are skipped by the provider loop; SciraChat's loop can
forward an empty-text envelope. -/
theorem c9_envelopes_nonempty (chunks : List JVal) (lastEmpty : Bool) (ex : StreamExit) :
    ((aprielRun false chunks ex).yields.all PResp.envNonempty) = true ∧
    ((gmiRun false chunks ex).yields.all PResp.envNonempty) = true ∧
    ((k2thinkRun false chunks ex).yields.all PResp.envNonempty) = true ∧
    ((turboseekRun false chunks ex).yields.all PResp.envNonempty) = true ∧
    ((twoaiRun lastEmpty false chunks ex).yields.all PResp.envNonempty) = true := by
  refine ⟨?_, ?_, ?_, ?_, ?_⟩
  · rw [aprielRun_yields_false]
    exact all_envNonempty_map _ (fun s hs => strGuardTexts_mem_ne _ s hs)
  · rw [gmiRun_yields_false]
    exact all_envNonempty_map _ (fun s hs => strGuardTexts_mem_ne _ s hs)
  · rw [k2thinkRun_yields]
    exact all_envNonempty_map _ (fun s hs => k2Texts_mem_ne _ s hs)
  · rw [turboseekRun_yields_false]
    exact all_envNonempty_map _ (fun s hs => strGuardTexts_mem_ne _ s hs)
  · rw [twoaiRun_yields_false]
    exact all_envNonempty_map _ (fun s hs => strGuardTexts_mem_ne _ s hs)

theorem aprielRun_commits (raw : Bool) (chunks : List JVal) (ex : StreamExit) :
    (aprielRun raw chunks ex).commits
      = if (strAccAt chunks ex).isEmpty then [] else [strAccAt chunks ex] := rfl

theorem k2thinkRun_commits (raw : Bool) (chunks : List JVal) (ex : StreamExit) :
    (k2thinkRun raw chunks ex).commits
      = if (k2AccAt chunks ex).isEmpty then [] else [k2AccAt chunks ex] := rfl

theorem string_isEmpty_false_of_ne {s : String} (h : s ≠ "") : s.isEmpty = false := by
  rw [Bool.eq_false_iff]
  intro he
  exact h ((String.isEmpty_iff _).mp he)

/-- C2 (corrected), counterexample: a consumer abandons a TurboSeek
stream after reading the first delta; the accumulated text `"Hel"` is
non-empty, yet `update_chat_history` is never called — the TurboSeek
commit is not in a `finally`. -/
theorem c2_counterexample :
    strAccAt [.jstr "Hel", .jstr "lo"] (.abandonAt 1) = "Hel" ∧
    (turboseekRun false [.jstr "Hel", .jstr "lo"] (.abandonAt 1)).commits = [] :=
  ⟨rfl, rfl⟩

/-- C2 (amended): Apriel and K2Think commit a non-empty accumulator
exactly once on every exit of the stream, via an unconditional
`finally`; TurboSeek commits exactly once only on normal exhaustion and
never on a transport error or consumer abandonment; TwoAI commits
exactly once provided `self.last_response` was still falsy when the
call began. -/
theorem c2_history_commit_discipline (raw lastEmpty : Bool) (chunks : List JVal)
    (ex : StreamExit) (k : Nat) (msg : String) :
    (strAccAt chunks ex ≠ "" → (aprielRun raw chunks ex).commits = [strAccAt chunks ex]) ∧
    (k2AccAt chunks ex ≠ "" → (k2thinkRun raw chunks ex).commits = [k2AccAt chunks ex]) ∧
    (strAccAt chunks .normal ≠ "" →
      (turboseekRun false chunks .normal).commits = [strAccAt chunks .normal]) ∧
    (turboseekRun raw chunks (.errorAt k msg)).commits = [] ∧
    (turboseekRun raw chunks (.abandonAt k)).commits = [] ∧
    (lastEmpty = true → strAccAt chunks ex ≠ "" →
      (twoaiRun lastEmpty raw chunks ex).commits = [strAccAt chunks ex]) := by
  refine ⟨?_, ?_, ?_, rfl, rfl, ?_⟩
  · intro h
    rw [aprielRun_commits, if_neg (by rw [string_isEmpty_false_of_ne h]; simp)]
  · intro h
    rw [k2thinkRun_commits, if_neg (by rw [string_isEmpty_false_of_ne h]; simp)]
  · intro h
    have : (turboseekRun false chunks .normal).commits
        = if (strAccAt chunks .normal).isEmpty then [] else [strAccAt chunks .normal] := rfl
    rw [this, if_neg (by rw [string_isEmpty_false_of_ne h]; simp)]
  · intro hle h
    subst hle
    cases ex with
    | normal => rfl
    | errorAt k m =>
      have : (twoaiRun true raw chunks (.errorAt k m)).commits
          = if !(strAccAt chunks (.errorAt k m)).isEmpty && true
            then [strAccAt chunks (.errorAt k m)] else [] := rfl
      rw [this, if_pos (by rw [string_isEmpty_false_of_ne h]; simp)]
    | abandonAt k =>
      have : (twoaiRun true raw chunks (.abandonAt k)).commits
          = if !(strAccAt chunks (.abandonAt k)).isEmpty && true
            then [strAccAt chunks (.abandonAt k)] else [] := rfl
      rw [this, if_pos (by rw [string_isEmpty_false_of_ne h]; simp)]

/-- Witness for C2 (amended) at the one-chunk stream `["Hi"]`. -/
theorem c2_history_commit_discipline_witness :
    (strAccAt [.jstr "Hi"] .normal ≠ "" ∧
      (aprielRun false [.jstr "Hi"] .normal).commits = [strAccAt [.jstr "Hi"] .normal]) ∧
    (k2AccAt [.jstr "Hi"] .normal ≠ "" ∧
      (k2thinkRun false [.jstr "Hi"] .normal).commits = [k2AccAt [.jstr "Hi"] .normal]) ∧
    (turboseekRun false [.jstr "Hi"] .normal).commits = [strAccAt [.jstr "Hi"] .normal] ∧
    (twoaiRun true false [.jstr "Hi"] .normal).commits = [strAccAt [.jstr "Hi"] .normal] :=
  ⟨⟨by decide, (c2_history_commit_discipline false true [.jstr "Hi"] .normal 0 "e").1 (by decide)⟩,
   ⟨by decide, (c2_history_commit_discipline false true [.jstr "Hi"] .normal 0 "e").2.1 (by decide)⟩,
   (c2_history_commit_discipline false true [.jstr "Hi"] .normal 0 "e").2.2.1 (by decide),
   (c2_history_commit_discipline false true [.jstr "Hi"] .normal 0 "e").2.2.2.2.2 rfl (by decide)⟩

/-- C3 (corrected), counterexample: a transport error after TurboSeek
has accumulated the partial text `"part"` is wrapped and raised, but
the partial text is dropped — `update_chat_history` is never called. -/
theorem c3_counterexample :
    (turboseekRun false [.jstr "part"] (.errorAt 1 "boom")).error
      = some "Request failed (CurlError): boom" ∧
    strAccAt [.jstr "part"] (.errorAt 1 "boom") = "part" ∧
    (turboseekRun false [.jstr "part"] (.errorAt 1 "boom")).commits = [] :=
  ⟨rfl, rfl, rfl⟩

/-- C3 (amended): a transport error raised while pulling the body is
wrapped into `FailedToGenerateResponseError` carrying the original
exception text and aborts the stream in Apriel, K2Think and TurboSeek;
the partial accumulated text is still committed by Apriel and K2Think
(`finally`), while TurboSeek drops it. -/
theorem c3_transport_error_wrapping (raw : Bool) (chunks : List JVal)
    (k : Nat) (msg : String) :
    (aprielRun raw chunks (.errorAt k msg)).error
      = some ("Request failed (CurlError): " ++ msg) ∧
    (strAccAt chunks (.errorAt k msg) ≠ "" →
      (aprielRun raw chunks (.errorAt k msg)).commits = [strAccAt chunks (.errorAt k msg)]) ∧
    (k2thinkRun raw chunks (.errorAt k msg)).error
      = some ("Request failed (CurlError): " ++ msg) ∧
    (k2AccAt chunks (.errorAt k msg) ≠ "" →
      (k2thinkRun raw chunks (.errorAt k msg)).commits = [k2AccAt chunks (.errorAt k msg)]) ∧
    (turboseekRun raw chunks (.errorAt k msg)).error
      = some ("Request failed (CurlError): " ++ msg) ∧
    (turboseekRun raw chunks (.errorAt k msg)).commits = [] := by
  refine ⟨rfl, ?_, rfl, ?_, rfl, rfl⟩
  · intro h
    rw [aprielRun_commits, if_neg (by rw [string_isEmpty_false_of_ne h]; simp)]
  · intro h
    rw [k2thinkRun_commits, if_neg (by rw [string_isEmpty_false_of_ne h]; simp)]

/-- Witness for C3 (amended) at the stream `["Hi"]` failing after its
first chunk with message `"x"`. -/
theorem c3_transport_error_wrapping_witness :
    (strAccAt [.jstr "Hi"] (.errorAt 1 "x") ≠ "" ∧
      (aprielRun false [.jstr "Hi"] (.errorAt 1 "x")).commits
        = [strAccAt [.jstr "Hi"] (.errorAt 1 "x")]) ∧
    (k2AccAt [.jstr "Hi"] (.errorAt 1 "x") ≠ "" ∧
      (k2thinkRun false [.jstr "Hi"] (.errorAt 1 "x")).commits
        = [k2AccAt [.jstr "Hi"] (.errorAt 1 "x")]) :=
  ⟨⟨by decide, (c3_transport_error_wrapping false [.jstr "Hi"] 1 "x").2.1 (by decide)⟩,
   ⟨by decide, (c3_transport_error_wrapping false [.jstr "Hi"] 1 "x").2.2.2.1 (by decide)⟩⟩

/-- C4: skip precedence — when any `skip_regexes` pattern matches the
frame's raw text, the frame yields nothing, regardless of the
configured extract regexes or content extractor. -/
theorem c4_skip_precedence (cfg : SanitizeCfg) (frame : String)
    (h : cfg.skipRegexes.any (fun p => p frame) = true) :
    (processFrame cfg frame).isEmit = false := by
  unfold processFrame
  rw [List.any_eq_true] at h
  by_cases hm : pyStrip frame ∈ cfg.skipMarkers
  · simp [hm, FrameStep.isEmit]
  · simp [hm, h, FrameStep.isEmit]

/-- Witness for C4 at K2Think's streaming rule set and a frame matching
both the reasoning-details skip rule and the `<answer>` extract rule
(spec Scenario E). -/
theorem c4_skip_precedence_witness :
    (k2StreamCfg.skipRegexes.any
      (fun p => p " <answer>hi</answer><details type=\"reasoning\" open>x</details>") = true) ∧
    firstExtract k2StreamCfg.extractRegexes
      " <answer>hi</answer><details type=\"reasoning\" open>x</details>" = some "hi" ∧
    (processFrame k2StreamCfg
      " <answer>hi</answer><details type=\"reasoning\" open>x</details>").isEmit = false :=
  ⟨rfl, rfl,
   c4_skip_precedence k2StreamCfg
     " <answer>hi</answer><details type=\"reasoning\" open>x</details>" rfl⟩

/-- C1 (corrected), counterexample: over the single upstream line
`data: <details type="reasoning" open><summary>T</summary>THOUGHTS</details>`
K2Think's streaming mode yields nothing (the reasoning block matches a
skip rule), while its non-streaming mode — which uses a different
extract/skip rule set — returns `"THOUGHTS"`. -/
theorem c1_counterexample :
    k2AskStreamJoined
      ["data: <details type=\"reasoning\" open><summary>T</summary>THOUGHTS</details>\n"]
      = "" ∧
    k2AskNonStreamText
      ["data: <details type=\"reasoning\" open><summary>T</summary>THOUGHTS</details>\n"]
      = "THOUGHTS" ∧
    ("" : String) ≠ "THOUGHTS" :=
  ⟨rfl, rfl, by decide⟩

/-- C1 (amended): streaming/non-streaming equivalence holds for the
providers whose non-streaming arm drains the same streaming generator
on a fresh instance — Apriel and TurboSeek: joining the streamed deltas
gives exactly the string contained in the non-streaming result.
K2Think (different rule sets plus unicode-escape decoding) and GMI
(a separate non-streaming request) are not equivalent. -/
theorem c1_stream_nonstream_equivalence (chunks : List JVal) :
    apriel_ask [] false true chunks
      = .single (.jstr (sumYieldTexts (aprielRun false chunks .normal).yields)) ∧
    turboseek_ask false false chunks
      = .single (.jobj [("text",
          .jstr (sumYieldTexts (turboseekRun false chunks .normal).yields))]) := by
  constructor
  · rw [aprielRun_yields_false, sumYieldTexts_map_env]
    unfold apriel_ask
    by_cases h : (pyConcat (strGuardTexts chunks)).isEmpty
    · simp only [if_false, Bool.false_eq_true, h, if_true]
      have he : pyConcat (strGuardTexts chunks) = "" := (String.isEmpty_iff _).mp h
      simp [JVal.lookup, exitChunks, he]
    · simp only [if_false, Bool.false_eq_true, h, if_true]
      simp [JVal.lookup, exitChunks, h]
  · rfl
